import Mathlib

/-!
Shallow embedding of the peapod EAPOL proxy's packet pipeline
(packet.c, process.c, proxy.c, b64enc.c and their headers), together
with proofs about the embedded definitions.

Machine integers are modelled as Nat with explicit truncation where the
source truncates; fallible operations return Option or encode the
source's sentinel error values.
-/

namespace Peapod

/-! Constants from parser.h, packet.h, process.h and linux headers. -/

def IFACE_SET_MAC : Nat := 0xff

def TCI_NO_DOT1Q : Nat := 0xef

def TCI_UNTOUCHED : Nat := 0xff

def TCI_UNTOUCHED_16 : Nat := 0xffff

def ETH_P_8021Q : Nat := 0x8100

def EAPOL_EAP : Nat := 0

/-- Alias used by process.c for the EAPOL-EAP packet type value. -/
def EAPOL_EAP_PACKET : Nat := EAPOL_EAP

def EAP_CODE_REQUEST : Nat := 1

def EAP_CODE_RESPONSE : Nat := 2

def PROCESS_INGRESS : Nat := 0

def PROCESS_EGRESS : Nat := 1

/-- TP_STATUS_VLAN_VALID from linux/if_packet.h. -/
def TP_STATUS_VLAN_VALID : Nat := 0x10

/-- The three variable fields of an 802.1Q VLAN tag (struct tci_t,
parser.h). pcp and dei are uint8_t fields, vid is uint16_t. -/
structure tci_t where
  pcp : Nat
  dei : Nat
  vid : Nat
  deriving Repr, DecidableEq

/-- packet_tcitonl (packet.c): build the 32-bit value of a 4-byte 802.1Q
tag from a tci_t. The source returns htonl of this value; we model the
host-order 32-bit value, whose big-endian byte serialization is what
goes on the wire. Arithmetic is on uint32_t, hence the mod 2^32. -/
def packet_tcitonl (tci : tci_t) : Nat :=
  ((((ETH_P_8021Q <<< 4) ||| ((tci.pcp &&& 0x07) <<< 1) ||| (tci.dei &&& 0x01)) % 2 ^ 32)
      <<< 12 ||| (tci.vid &&& 0x0fff)) % 2 ^ 32

/-- The capture-path TCI extraction in packet_recvmsg (packet.c): decode
a 16-bit tp_vlan_tci value into the three TCI sub-fields. -/
def recvTci (dot1q : Nat) : tci_t :=
  { pcp := (dot1q &&& 0xe000) >>> 13
    dei := (dot1q &&& 0x1000) >>> 12
    vid := dot1q &&& 0x0fff }

/-! Remaining data model: frames, interfaces, policies (parser.h,
packet.h) and the operations on them (packet.c, process.c, proxy.c,
b64enc.c). -/

/-- Serialize a 32-bit value to its big-endian byte sequence, as htonl
followed by memcpy does in packet_buf. -/
def be32 (x : Nat) : List Nat :=
  [(x >>> 24) &&& 0xff, (x >>> 16) &&& 0xff, (x >>> 8) &&& 0xff, x &&& 0xff]

/-- The slice of struct peapod_packet (packet.h) that the modelled
operations read and write, plus the fields of the packet that process.c
reads through the pdu pointer (EAP identifier and request/response
type) and through the iface pointers (names and MTUs). MAC addresses
are byte lists. -/
structure peapod_packet where
  tv_sec : Nat
  tv_usec : Nat
  len : Int
  len_orig : Int
  h_dest : List Nat
  h_source : List Nat
  vlan_valid : Nat
  vlan_valid_orig : Nat
  tci : tci_t
  tci_orig : tci_t
  type : Nat
  code : Nat
  eap_id : Nat
  eap_type : Nat
  name : String
  name_orig : String
  mtu : Nat
  mtu_orig : Nat
  deriving Repr, DecidableEq

/-- packet_buf (packet.c): reconstruct the on-wire frame bytes from the
packet record and the captured EAPOL MPDU. With the 802.1Q tag the
frame is dest, source, 4 tag bytes, MPDU; without it the tag bytes are
absent. orig selects the original (as-captured) VLAN state. -/
def packet_buf (packet : peapod_packet) (orig : Bool) (mpdu : List Nat) : List Nat :=
  let vlan_valid := if orig then packet.vlan_valid_orig else packet.vlan_valid
  let tci := if orig then packet.tci_orig else packet.tci
  if vlan_valid ≠ 0 then
    packet.h_dest ++ packet.h_source ++ be32 (packet_tcitonl tci) ++ mpdu
  else
    packet.h_dest ++ packet.h_source ++ mpdu

/-- The TCI-override and length-adjustment part of packet_send (packet.c
lines 365-389): apply the egress interface's optional TCI override to
the packet value, then adjust len when the VLAN flag changed against
the original. -/
def packet_send_vlan (packet : peapod_packet) (egress_tci : Option tci_t) : peapod_packet :=
  let packet :=
    match egress_tci with
    | none => packet
    | some iface_tci =>
      if iface_tci.pcp = TCI_NO_DOT1Q then
        { packet with vlan_valid := 0, tci := ⟨0, 0, 0⟩ }
      else
        { packet with
            vlan_valid := 1
            tci :=
              { pcp := if iface_tci.pcp ≠ TCI_UNTOUCHED then iface_tci.pcp else packet.tci.pcp
                dei := if iface_tci.dei ≠ TCI_UNTOUCHED then iface_tci.dei else packet.tci.dei
                vid := if iface_tci.vid ≠ TCI_UNTOUCHED_16 then iface_tci.vid else packet.tci.vid } }
  if packet.vlan_valid = 1 ∧ packet.vlan_valid_orig = 0 then
    { packet with len := packet.len + 4 }
  else if packet.vlan_valid = 0 ∧ packet.vlan_valid_orig = 1 then
    { packet with len := packet.len - 4 }
  else
    packet

/-- Filter masks (struct filter_t, parser.h). Both fields are uint8_t
in the source; the structure invariant frame < 256 and packet < 256 is
carried as a hypothesis where needed. -/
structure filter_t where
  frame : Nat
  packet : Nat
  deriving Repr, DecidableEq

/-- The filter decision (static filter(), process.c): 1 means drop.
The source computes the frame mask test with (uint8_t)(1 << type),
modelled by the mod 256 truncation, and likewise for the code test. -/
def filter (f : filter_t) (type code : Nat) : Nat :=
  if f.frame &&& ((1 <<< type) % 256) ≠ 0 then 1
  else if type = EAPOL_EAP_PACKET ∧ f.packet &&& ((1 <<< code) % 256) ≠ 0 then 1
  else 0

/-- Scripts to execute (struct action_t, parser.h): two arrays of five
optional script paths, indexed by EAPOL frame type resp. EAP code. -/
structure action_t where
  frame : Fin 5 → Option String
  packet : Fin 5 → Option String

/-- Number of entries of each action_t array in the source. -/
def ACTION_ARRAY_LEN : Nat := 5

/-- Array read action->frame[t]: some entry when in bounds, none for an
out-of-bounds (undefined-behavior) access. -/
def action_frame_get (a : action_t) (t : Nat) : Option (Option String) :=
  if h : t < ACTION_ARRAY_LEN then some (a.frame ⟨t, h⟩) else none

/-- Array read action->packet[c], with the same out-of-bounds marker. -/
def action_packet_get (a : action_t) (c : Nat) : Option (Option String) :=
  if h : c < ACTION_ARRAY_LEN then some (a.packet ⟨c, h⟩) else none

/-- Script-path selection of process_script (process.c lines 300-312):
the frame-type entry is consulted first; when it is NULL and the frame
is EAPOL-EAP the EAP-code entry is consulted. The outer none marks an
out-of-bounds array access; some none means no script runs; some (some
p) means exactly the script p runs. -/
def process_script_path (a : action_t) (type code : Nat) : Option (Option String) :=
  match action_frame_get a type with
  | none => none
  | some (some path) => some (some path)
  | some none =>
    if type = EAPOL_EAP_PACKET then
      match action_packet_get a code with
      | none => none
      | some r => some r
    else
      some none

/-- Ingress policy (struct ingress_t, parser.h); only the parts the
modelled operations read. -/
structure ingress_t where
  filter : Option filter_t
  deriving Repr, DecidableEq

/-- Egress policy (struct egress_t, parser.h). -/
structure egress_t where
  tci : Option tci_t
  filter : Option filter_t
  deriving Repr, DecidableEq

/-- The policy slice of struct iface_t (parser.h) read by
process_filter. -/
structure iface_conf where
  ingress : Option ingress_t
  egress : Option egress_t
  deriving Repr, DecidableEq

/-- The egress filter mask of an interface, if any. -/
def egressFilter (i : iface_conf) : Option filter_t :=
  match i.egress with
  | none => none
  | some e => e.filter

/-- The ingress filter mask of an interface, if any. -/
def ingressFilter (i : iface_conf) : Option filter_t :=
  match i.ingress with
  | none => none
  | some g => g.filter

/-- process_filter (process.c lines 248-263): use the egress masks when
dir is PROCESS_EGRESS and the interface has an egress filter; otherwise
fall through to the ingress masks when present; otherwise 0. -/
def process_filter (type code : Nat) (iface : iface_conf) (dir : Nat) : Nat :=
  match (if dir = PROCESS_EGRESS then egressFilter iface else none) with
  | some fltr => filter fltr type code
  | none =>
    match ingressFilter iface with
    | some fltr => filter fltr type code
    | none => 0

/-- struct packet_auxdata_t (packet.h), the kernel auxiliary record. -/
structure packet_auxdata_t where
  tp_status : Nat
  tp_len : Nat
  tp_snaplen : Nat
  tp_mac : Nat
  tp_net : Nat
  tp_vlan_tci : Nat
  tp_vlan_tpid : Nat
  deriving Repr, DecidableEq

/-- Result fields of packet_recvmsg that the proxy loop inspects. -/
structure recv_result where
  len : Int
  vlan_valid : Nat
  tci : tci_t
  deriving Repr, DecidableEq

/-- packet_recvmsg (packet.c lines 431-538), as a function of the value
returned by recvmsg and the optional PACKET_AUXDATA control message:
-1 is a receive error, -2 a runt frame (under 60 bytes), -3 a giant
frame (the on-wire tp_len exceeded what the buffer received); otherwise
the length, with 4 added and the TCI decoded when the kernel flags a
valid 802.1Q tag with TPID 0x8100. -/
def packet_recvmsg (recv_len : Int) (aux : Option packet_auxdata_t) : recv_result :=
  if recv_len = -1 then ⟨-1, 0, ⟨0, 0, 0⟩⟩
  else if recv_len < 60 then ⟨-2, 0, ⟨0, 0, 0⟩⟩
  else
    match aux with
    | none => ⟨recv_len, 0, ⟨0, 0, 0⟩⟩
    | some a =>
      if recv_len < (a.tp_len : Int) then ⟨-3, 0, ⟨0, 0, 0⟩⟩
      else if a.tp_status &&& TP_STATUS_VLAN_VALID ≠ 0 ∧ a.tp_vlan_tpid = ETH_P_8021Q then
        ⟨recv_len + 4, 1, recvTci a.tp_vlan_tci⟩
      else
        ⟨recv_len, 0, ⟨0, 0, 0⟩⟩

/-- What the proxy loop does with the len field of a capture result
(proxy.c lines 176-189). -/
inductive disposition where
  | error_restart : disposition
  | drop_continue : disposition
  | relay : disposition
  deriving Repr, DecidableEq

/-- The dispatch on pkt.len in proxy() (proxy.c lines 176-189): -1 goes
to the error-restart path, -2 and -3 are dropped with the loop
continuing, anything else proceeds to the relay phases. -/
def proxy_disposition (len : Int) : disposition :=
  if len = -1 then .error_restart
  else if len = -2 ∨ len = -3 then .drop_continue
  else .relay

/-- The per-interface state read and written by the set-MAC-from walk in
proxy() (proxy.c lines 191-215). set_mac_from is the kernel index of
the interface to copy a MAC from, 0 when unset. -/
structure proxy_iface where
  index : Nat
  set_mac_from : Nat
  recv_ctr : Nat
  deriving Repr, DecidableEq

/-- One successful-receive step of the proxy loop (proxy.c lines
191-215): increment the capturing interface's receive counter, then,
only when that counter just became 1, walk the whole table clearing
set_mac_from on every interface that references the capturing one. The
second component records the iface_set_mac invocations as (peer index,
source MAC) pairs, in table order. -/
def proxy_bump (ifaces : List proxy_iface) (cap : Nat) : List proxy_iface :=
  ifaces.map fun i =>
    if i.index = cap then { i with recv_ctr := i.recv_ctr + 1 } else i

def proxy_recv_step (ifaces : List proxy_iface) (cap : Nat) (src : List Nat) :
    List proxy_iface × List (Nat × List Nat) :=
  match (proxy_bump ifaces cap).find? (fun i => i.index == cap) with
  | none => (proxy_bump ifaces cap, [])
  | some c =>
    if c.recv_ctr = 1 then
      ((proxy_bump ifaces cap).map fun i =>
        if i.set_mac_from = cap then { i with set_mac_from := 0 } else i,
       ((proxy_bump ifaces cap).filter fun i => i.set_mac_from == cap).map
         fun i => (i.index, src))
    else
      (proxy_bump ifaces cap, [])

/-- The Base64 index table of b64enc.c. -/
def b64 : List Char :=
  ['A', 'B', 'C', 'D', 'E', 'F', 'G', 'H',
   'I', 'J', 'K', 'L', 'M', 'N', 'O', 'P',
   'Q', 'R', 'S', 'T', 'U', 'V', 'W', 'X',
   'Y', 'Z', 'a', 'b', 'c', 'd', 'e', 'f',
   'g', 'h', 'i', 'j', 'k', 'l', 'm', 'n',
   'o', 'p', 'q', 'r', 's', 't', 'u', 'v',
   'w', 'x', 'y', 'z', '0', '1', '2', '3',
   '4', '5', '6', '7', '8', '9', '+', '/']

/-- Table lookup b64[n]; indices produced by the encoder are below 64,
so the default is never reached on the encoder's inputs. -/
def b64char (n : Nat) : Char := b64.getD n 'A'

/-- Inverse of b64char on the table range, used by the canonical
decoder. -/
def b64val (c : Char) : Nat := b64.indexOf c

/-- b64enc (b64enc.c): the loop over whole 3-byte groups followed by the
1- or 2-byte tail with = padding. The C function also appends a null
terminator to the returned allocation; the model is the string before
the terminator. -/
def b64enc : List Nat → List Char
  | b0 :: b1 :: b2 :: rest =>
    b64char (b0 >>> 2) ::
    b64char ((b0 &&& 0x3) <<< 4 ||| (b1 &&& 0xf0) >>> 4) ::
    b64char ((b1 &&& 0xf) <<< 2 ||| (b2 &&& 0xc0) >>> 6) ::
    b64char (b2 &&& 0x3f) :: b64enc rest
  | [b0, b1] =>
    [b64char (b0 >>> 2), b64char ((b0 &&& 0x3) <<< 4 ||| (b1 &&& 0xf0) >>> 4),
     b64char ((b1 &&& 0xf) <<< 2), '=']
  | [b0] =>
    [b64char (b0 >>> 2), b64char ((b0 &&& 0x3) <<< 4), '=', '=']
  | [] => []

/-- Canonical padded Base64 decoding, the specification-side inverse
used to state the round-trip property. -/
def b64dec : List Char → List Nat
  | c0 :: c1 :: c2 :: c3 :: rest =>
    if c2 = '=' then
      [(b64val c0) <<< 2 ||| (b64val c1) >>> 4]
    else if c3 = '=' then
      [(b64val c0) <<< 2 ||| (b64val c1) >>> 4,
       ((b64val c1) &&& 0xf) <<< 4 ||| (b64val c2) >>> 2]
    else
      ((b64val c0) <<< 2 ||| (b64val c1) >>> 4) ::
      (((b64val c1) &&& 0xf) <<< 4 ||| (b64val c2) >>> 2) ::
      (((b64val c2) &&& 0x3) <<< 6 ||| (b64val c3)) :: b64dec rest
  | _ => []

/-- Lowercase hexadecimal digit, as printf %x renders one nibble. -/
def hexChar (n : Nat) : Char :=
  if n < 10 then Char.ofNat (48 + n) else Char.ofNat (87 + n)

/-- The eight characters snprintf %.08x writes for a 32-bit value. -/
def hex8chars (x : Nat) : List Char :=
  (List.range 8).map fun i => hexChar ((x >>> (4 * (7 - i))) &&& 0xf)

/-- The environment value for PKT_TCI and PKT_TCI_ORIG (process.c): the
script gets buf + 4, the last four hex characters, TPID cut off. -/
def tciEnvValue (tci : tci_t) : String :=
  String.mk ((hex8chars (packet_tcitonl tci)).drop 4)

/-- The two characters printf %.02x writes for a byte. -/
def hex2chars (b : Nat) : List Char :=
  [hexChar ((b >>> 4) &&& 0xf), hexChar (b &&& 0xf)]

/-- iface_strmac (iface.c): colon-separated lowercase hex. -/
def iface_strmac (mac : List Nat) : String :=
  String.intercalate ":" (mac.map fun b => String.mk (hex2chars b))

/-- An entry list {value, description} (struct decode_t, packet.h). -/
def decode_t := List (Nat × String)

/-- packet_decode (packet.c): first matching description, else
Unknown. -/
def packet_decode (val : Nat) : decode_t → String
  | [] => "Unknown"
  | (v, desc) :: rest => if val = v then desc else packet_decode val rest

/-- eapol_types (packet.h). -/
def eapol_types : decode_t :=
  [(0, "EAPOL-EAP"), (1, "EAPOL-Start"), (2, "EAPOL-Logoff"), (3, "EAPOL-Key"),
   (4, "EAPOL-Encapsulated-ASF-Alert"), (5, "EAPOL-MKA"),
   (6, "EAPOL-Announcement (Generic)"), (7, "EAPOL-Announcement (Specific)"),
   (8, "EAPOL-Announcement-Req")]

/-- eap_codes (packet.h). -/
def eap_codes : decode_t :=
  [(1, "Request"), (2, "Response"), (3, "Success"), (4, "Failure")]

/-- eap_types (packet.h). -/
def eap_types : decode_t :=
  [(1, "Identity"), (2, "Notification"), (3, "Nak (Response only)"),
   (4, "MD5-Challenge"), (5, "One Time Password (OTP)"),
   (6, "Generic Token Card (GTC)"), (13, "EAP TLS"), (18, "EAP-SIM"),
   (21, "EAP-TTLS"), (23, "EAP-AKA"), (25, "PEAP"), (26, "EAP MS-CHAP-V2"),
   (29, "EAP MS-CHAP V2"), (43, "EAP-FAST"), (49, "EAP-IKEv2"),
   (254, "Expanded Types"), (255, "Experimental use")]

/-- The PKT_* environment variables set by script() (process.c lines
160-225), in setenv order, as (name, value) pairs. mpdu carries the
captured EAPOL MPDU bytes used for the Base64-encoded frame images. -/
def script_env (packet : peapod_packet) (mpdu : List Nat) : List (String × String) :=
  [("PKT_TIME", Nat.repr packet.tv_sec ++ "." ++ Nat.repr packet.tv_usec),
   ("PKT_DEST", iface_strmac packet.h_dest),
   ("PKT_SOURCE", iface_strmac packet.h_source),
   ("PKT_TYPE", Nat.repr packet.type),
   ("PKT_TYPE_DESC", packet_decode packet.type eapol_types)]
  ++ (if packet.type = EAPOL_EAP_PACKET then
        [("PKT_CODE", Nat.repr packet.code),
         ("PKT_CODE_DESC", packet_decode packet.code eap_codes),
         ("PKT_ID", Nat.repr packet.eap_id)]
        ++ (if packet.code = 1 ∨ packet.code = 2 then
              [("PKT_REQRESP_TYPE", Nat.repr packet.eap_type),
               ("PKT_REQRESP_DESC", packet_decode packet.eap_type eap_types)]
            else [])
      else [])
  ++ [("PKT_LENGTH_ORIG", Int.repr packet.len_orig),
      ("PKT_ORIG", String.mk (b64enc ((packet_buf packet true mpdu).take packet.len_orig.toNat))),
      ("PKT_IFACE_ORIG", packet.name_orig),
      ("PKT_IFACE_MTU_ORIG", Nat.repr packet.mtu_orig)]
  ++ (if packet.vlan_valid_orig = 1 then
        [("PKT_TCI_ORIG", tciEnvValue packet.tci_orig)]
      else [])
  ++ [("PKT_LENGTH", Int.repr packet.len),
      ("PKT", String.mk (b64enc ((packet_buf packet false mpdu).take packet.len.toNat))),
      ("PKT_IFACE", packet.name),
      ("PKT_IFACE_MTU", Nat.repr packet.mtu)]
  ++ (if packet.vlan_valid = 1 then
        [("PKT_TCI", tciEnvValue packet.tci)]
      else [])

/-! Arithmetic bridging lemmas for the bitwise operations used by the
source: shifts become division/multiplication by powers of two, low-bit
masks become mod, and disjoint bitwise or becomes addition. -/

theorem and_shiftRight_distrib (a b : Nat) :
    ∀ n, (a &&& b) >>> n = (a >>> n) &&& (b >>> n) := by
  intro n
  induction n with
  | zero => simp
  | succ n ih =>
      rw [Nat.shiftRight_succ, Nat.shiftRight_succ, Nat.shiftRight_succ, ih]
      have h1 : ∀ x : Nat, x >>> 1 = x / 2 := by
        intro x
        rw [Nat.shiftRight_eq_div_pow, pow_one]
      simp only [h1, Nat.and_div_two]

theorem lor_eq_add_of_mod_eq_zero {a b : Nat} (i : Nat) (ha : a % 2 ^ i = 0)
    (hb : b < 2 ^ i) : a ||| b = a + b := by
  have hdvd : 2 ^ i ∣ a := Nat.dvd_of_mod_eq_zero ha
  have ha' : a = 2 ^ i * (a / 2 ^ i) := (Nat.mul_div_cancel' hdvd).symm
  rw [ha']
  exact (Nat.mul_add_lt_is_or hb _).symm

theorem and_mask_mod {x : Nat} (n m : Nat) (h : m = 2 ^ n - 1) :
    x &&& m = x % 2 ^ n := by
  rw [h]
  exact Nat.and_pow_two_sub_one_eq_mod x n

theorem shiftLeft_mul (x n : Nat) : x <<< n = x * 2 ^ n := Nat.shiftLeft_eq x n

theorem shiftRight_div (x n : Nat) : x >>> n = x / 2 ^ n := Nat.shiftRight_eq_div_pow x n

/-- The normal form of packet_tcitonl for in-range sub-field values: the
tag value is the TPID 0x8100 in the upper 16 bits and pcp, dei, vid
packed below it. -/
theorem packet_tcitonl_eq (p d v : Nat) (hp : p < 8) (hd : d < 2) (hv : v < 4096) :
    packet_tcitonl ⟨p, d, v⟩ = 0x81000000 + 8192 * p + 4096 * d + v := by
  unfold packet_tcitonl ETH_P_8021Q
  dsimp only
  have h7 : p &&& 0x07 = p := by
    rw [and_mask_mod 3 0x07 (by norm_num), Nat.mod_eq_of_lt (by omega)]
  have h1 : d &&& 0x01 = d := by
    rw [and_mask_mod 1 0x01 (by norm_num), Nat.mod_eq_of_lt (by omega)]
  have hvv : v &&& 0x0fff = v := by
    rw [and_mask_mod 12 0x0fff (by norm_num), Nat.mod_eq_of_lt (by omega)]
  simp only [h7, h1, hvv, shiftLeft_mul]
  have hA : (0x8100 : Nat) * 2 ^ 4 ||| p * 2 ^ 1 = 0x81000 + 2 * p := by
    rw [lor_eq_add_of_mod_eq_zero 4 (by omega) (by omega)]; omega
  rw [hA]
  have hB : (0x81000 + 2 * p) ||| d = 0x81000 + 2 * p + d := by
    rw [lor_eq_add_of_mod_eq_zero 1 (by omega) (by omega)]
  rw [hB]
  have hm1 : (0x81000 + 2 * p + d) % 2 ^ 32 = 0x81000 + 2 * p + d :=
    Nat.mod_eq_of_lt (by omega)
  rw [hm1]
  have hC : (0x81000 + 2 * p + d) * 2 ^ 12 ||| v
      = (0x81000 + 2 * p + d) * 2 ^ 12 + v := by
    rw [lor_eq_add_of_mod_eq_zero 12 (by omega) (by omega)]
  rw [hC]
  have hm2 : ((0x81000 + 2 * p + d) * 2 ^ 12 + v) % 2 ^ 32
      = (0x81000 + 2 * p + d) * 2 ^ 12 + v :=
    Nat.mod_eq_of_lt (by omega)
  rw [hm2]
  omega

/-- The capture-path extraction recovers the three sub-fields from the
packed 16-bit TCI value. -/
theorem recvTci_eq (p d v : Nat) (hp : p < 8) (hd : d < 2) (hv : v < 4096) :
    recvTci (8192 * p + 4096 * d + v) = ⟨p, d, v⟩ := by
  unfold recvTci
  have hpcp : ((8192 * p + 4096 * d + v) &&& 0xe000) >>> 13 = p := by
    rw [and_shiftRight_distrib]
    have he : (0xe000 : Nat) >>> 13 = 7 := by decide
    rw [he, shiftRight_div, and_mask_mod 3 7 (by norm_num)]
    omega
  have hdei : ((8192 * p + 4096 * d + v) &&& 0x1000) >>> 12 = d := by
    rw [and_shiftRight_distrib]
    have he : (0x1000 : Nat) >>> 12 = 1 := by decide
    rw [he, shiftRight_div, Nat.and_one_is_mod]
    omega
  have hvid : (8192 * p + 4096 * d + v) &&& 0x0fff = v := by
    rw [and_mask_mod 12 0x0fff (by norm_num)]
    omega
  rw [hpcp, hdei, hvid]

/-- C8: for all pcp in 0..7, dei in 0..1 and vid in 0..4094,
packet_tcitonl produces the 32-bit value (0x8100 << 16) | (pcp << 13) |
(dei << 12) | (vid & 0x0fff), and decoding the low 16 bits of it with
the capture-path TCI extraction recovers the original three
sub-fields. -/
theorem C8_tci_round_trip (p d v : Nat) (hp : p < 8) (hd : d < 2) (hv : v < 4095) :
    packet_tcitonl ⟨p, d, v⟩ =
        ((0x8100 <<< 16) ||| (p <<< 13) ||| (d <<< 12) ||| (v &&& 0x0fff)) ∧
      recvTci (packet_tcitonl ⟨p, d, v⟩ % 2 ^ 16) = ⟨p, d, v⟩ := by
  have hv' : v < 4096 := by omega
  constructor
  · rw [packet_tcitonl_eq p d v hp hd hv']
    have hvv : v &&& 0x0fff = v := by
      rw [and_mask_mod 12 0x0fff (by norm_num)]; omega
    simp only [hvv, shiftLeft_mul]
    have hOr1 : (0x8100 : Nat) * 2 ^ 16 ||| p * 2 ^ 13
        = 0x8100 * 2 ^ 16 + p * 2 ^ 13 :=
      lor_eq_add_of_mod_eq_zero 16 (by omega) (by omega)
    rw [hOr1]
    have hOr2 : (0x8100 : Nat) * 2 ^ 16 + p * 2 ^ 13 ||| d * 2 ^ 12
        = 0x8100 * 2 ^ 16 + p * 2 ^ 13 + d * 2 ^ 12 :=
      lor_eq_add_of_mod_eq_zero 13 (by omega) (by omega)
    rw [hOr2]
    have hOr3 : (0x8100 : Nat) * 2 ^ 16 + p * 2 ^ 13 + d * 2 ^ 12 ||| v
        = 0x8100 * 2 ^ 16 + p * 2 ^ 13 + d * 2 ^ 12 + v :=
      lor_eq_add_of_mod_eq_zero 12 (by omega) (by omega)
    rw [hOr3]
    omega
  · rw [packet_tcitonl_eq p d v hp hd hv']
    have hm : (0x81000000 + 8192 * p + 4096 * d + v) % 2 ^ 16
        = 8192 * p + 4096 * d + v := by omega
    rw [hm, recvTci_eq p d v hp hd hv']

/-- Witness for C8_tci_round_trip at pcp 3, dei 1, vid 100. -/
theorem C8_tci_round_trip_witness :
    ((3 : Nat) < 8 ∧ (1 : Nat) < 2 ∧ (100 : Nat) < 4095) ∧
      (packet_tcitonl ⟨3, 1, 100⟩ =
          ((0x8100 <<< 16) ||| (3 <<< 13) ||| (1 <<< 12) ||| (100 &&& 0x0fff)) ∧
        recvTci (packet_tcitonl ⟨3, 1, 100⟩ % 2 ^ 16) = ⟨3, 1, 100⟩) :=
  ⟨by decide, C8_tci_round_trip 3 1 100 (by decide) (by decide) (by decide)⟩

/-- Normal form of packet_send_vlan when the override strips the tag. -/
theorem packet_send_vlan_strip (pkt : peapod_packet) (o : tci_t)
    (h : o.pcp = TCI_NO_DOT1Q) :
    packet_send_vlan pkt (some o) =
      (if pkt.vlan_valid_orig = 1 then
        { pkt with vlan_valid := 0, tci := ⟨0, 0, 0⟩, len := pkt.len - 4 }
      else
        { pkt with vlan_valid := 0, tci := ⟨0, 0, 0⟩ }) := by
  unfold packet_send_vlan
  by_cases horig : pkt.vlan_valid_orig = 1 <;> simp [h, horig]

/-- Normal form of packet_send_vlan when the override keeps or writes a
tag: the result is always tagged, with per-field keep-or-override. -/
theorem packet_send_vlan_tag (pkt : peapod_packet) (o : tci_t)
    (h : ¬ o.pcp = TCI_NO_DOT1Q) :
    packet_send_vlan pkt (some o) =
      (if pkt.vlan_valid_orig = 0 then
        { pkt with vlan_valid := 1
                   tci := { pcp := if o.pcp ≠ TCI_UNTOUCHED then o.pcp else pkt.tci.pcp
                            dei := if o.dei ≠ TCI_UNTOUCHED then o.dei else pkt.tci.dei
                            vid := if o.vid ≠ TCI_UNTOUCHED_16 then o.vid else pkt.tci.vid }
                   len := pkt.len + 4 }
      else
        { pkt with vlan_valid := 1
                   tci := { pcp := if o.pcp ≠ TCI_UNTOUCHED then o.pcp else pkt.tci.pcp
                            dei := if o.dei ≠ TCI_UNTOUCHED then o.dei else pkt.tci.dei
                            vid := if o.vid ≠ TCI_UNTOUCHED_16 then o.vid else pkt.tci.vid } }) := by
  unfold packet_send_vlan
  by_cases horig : pkt.vlan_valid_orig = 0 <;> simp [h, horig]

/-- C1: with an egress TCI override present, packet_send applies the
override per field: a NO_DOT1Q override PCP drops the tag (vlan_valid
becomes 0, the TCI is zeroed and the reconstructed frame carries no
802.1Q tag); otherwise every UNTOUCHED sub-field keeps the captured
value and every other sub-field takes the override value; and len is
adjusted by +4 or -4 exactly when the resulting vlan_valid differs from
the captured vlan_valid_orig. -/
theorem C1_packet_send_tci_override (pkt : peapod_packet) (o : tci_t)
    (hvo : pkt.vlan_valid_orig ≤ 1) :
    (o.pcp = TCI_NO_DOT1Q →
        (packet_send_vlan pkt (some o)).vlan_valid = 0 ∧
        (packet_send_vlan pkt (some o)).tci = ⟨0, 0, 0⟩ ∧
        ∀ mpdu, packet_buf (packet_send_vlan pkt (some o)) false mpdu =
          pkt.h_dest ++ pkt.h_source ++ mpdu) ∧
    (o.pcp ≠ TCI_NO_DOT1Q →
        (packet_send_vlan pkt (some o)).vlan_valid = 1 ∧
        (packet_send_vlan pkt (some o)).tci.pcp =
          (if o.pcp = TCI_UNTOUCHED then pkt.tci.pcp else o.pcp) ∧
        (packet_send_vlan pkt (some o)).tci.dei =
          (if o.dei = TCI_UNTOUCHED then pkt.tci.dei else o.dei) ∧
        (packet_send_vlan pkt (some o)).tci.vid =
          (if o.vid = TCI_UNTOUCHED_16 then pkt.tci.vid else o.vid)) ∧
    ((packet_send_vlan pkt (some o)).vlan_valid = 1 ∧ pkt.vlan_valid_orig = 0 →
        (packet_send_vlan pkt (some o)).len = pkt.len + 4) ∧
    ((packet_send_vlan pkt (some o)).vlan_valid = 0 ∧ pkt.vlan_valid_orig = 1 →
        (packet_send_vlan pkt (some o)).len = pkt.len - 4) ∧
    ((packet_send_vlan pkt (some o)).vlan_valid = pkt.vlan_valid_orig →
        (packet_send_vlan pkt (some o)).len = pkt.len) := by
  by_cases hpcp : o.pcp = TCI_NO_DOT1Q
  · rw [packet_send_vlan_strip pkt o hpcp]
    by_cases horig : pkt.vlan_valid_orig = 1
    · refine ⟨fun _ => ⟨by simp [horig], by simp [horig], fun mpdu => ?_⟩,
        fun hne => absurd hpcp hne, ?_, ?_, ?_⟩
      · simp [horig, packet_buf]
      · intro hcontra
        simp [horig] at hcontra
      · intro _
        simp [horig]
      · intro hcontra
        simp [horig] at hcontra
    · refine ⟨fun _ => ⟨by simp [horig], by simp [horig], fun mpdu => ?_⟩,
        fun hne => absurd hpcp hne, ?_, ?_, ?_⟩
      · simp [horig, packet_buf]
      · intro hcontra
        simp [horig] at hcontra
      · intro hcontra
        simp [horig] at hcontra
      · intro _
        simp [horig]
  · rw [packet_send_vlan_tag pkt o hpcp]
    by_cases horig : pkt.vlan_valid_orig = 0
    · refine ⟨fun heq => absurd heq hpcp,
        fun _ => ⟨by simp [horig], ?_, ?_, ?_⟩, ?_, ?_, ?_⟩
      · by_cases h2 : o.pcp = TCI_UNTOUCHED <;> simp [horig, h2]
      · by_cases h2 : o.dei = TCI_UNTOUCHED <;> simp [horig, h2]
      · by_cases h2 : o.vid = TCI_UNTOUCHED_16 <;> simp [horig, h2]
      · intro _
        simp [horig]
      · intro hcontra
        simp [horig] at hcontra
      · intro hcontra
        simp [horig] at hcontra
    · refine ⟨fun heq => absurd heq hpcp,
        fun _ => ⟨by simp [horig], ?_, ?_, ?_⟩, ?_, ?_, ?_⟩
      · by_cases h2 : o.pcp = TCI_UNTOUCHED <;> simp [horig, h2]
      · by_cases h2 : o.dei = TCI_UNTOUCHED <;> simp [horig, h2]
      · by_cases h2 : o.vid = TCI_UNTOUCHED_16 <;> simp [horig, h2]
      · intro hcontra
        simp [horig] at hcontra
      · intro hcontra
        simp [horig] at hcontra
      · intro _
        simp [horig]

/-- Witness for C1_packet_send_tci_override on a tagged capture and a
partial override. -/
theorem C1_packet_send_tci_override_witness :
    ({ tv_sec := 0, tv_usec := 0, len := 64, len_orig := 64,
       h_dest := [1, 128, 194, 0, 0, 3], h_source := [2, 0, 0, 0, 0, 1],
       vlan_valid := 1, vlan_valid_orig := 1,
       tci := ⟨3, 0, 7⟩, tci_orig := ⟨3, 0, 7⟩, type := 1, code := 0,
       eap_id := 0, eap_type := 0, name := "eth1", name_orig := "eth0",
       mtu := 1500, mtu_orig := 1500 } : peapod_packet).vlan_valid_orig ≤ 1 ∧
    (packet_send_vlan
        { tv_sec := 0, tv_usec := 0, len := 64, len_orig := 64,
          h_dest := [1, 128, 194, 0, 0, 3], h_source := [2, 0, 0, 0, 0, 1],
          vlan_valid := 1, vlan_valid_orig := 1,
          tci := ⟨3, 0, 7⟩, tci_orig := ⟨3, 0, 7⟩, type := 1, code := 0,
          eap_id := 0, eap_type := 0, name := "eth1", name_orig := "eth0",
          mtu := 1500, mtu_orig := 1500 }
        (some ⟨5, TCI_UNTOUCHED, 100⟩)).tci.pcp =
      (if (5 : Nat) = TCI_UNTOUCHED then 3 else 5) := by
  constructor
  · decide
  · exact ((C1_packet_send_tci_override _ ⟨5, TCI_UNTOUCHED, 100⟩
      (by decide)).2.1 (by decide)).2.1

/-- C10: when an egress TCI override is present with PCP not NO_DOT1Q,
packet_send sets vlan_valid to 1 unconditionally, so a frame captured
without a tag and proxied through an all-UNTOUCHED override gains an
0x8100 tag whose sub-fields are the zeroed captured TCI, and its
on-wire length grows by 4 bytes. -/
theorem C10_untouched_override_adds_tag (pkt : peapod_packet) (mpdu : List Nat)
    (hvo : pkt.vlan_valid_orig = 0) (htci : pkt.tci = ⟨0, 0, 0⟩) :
    (packet_send_vlan pkt (some ⟨TCI_UNTOUCHED, TCI_UNTOUCHED, TCI_UNTOUCHED_16⟩)).vlan_valid = 1 ∧
    (packet_send_vlan pkt (some ⟨TCI_UNTOUCHED, TCI_UNTOUCHED, TCI_UNTOUCHED_16⟩)).tci = pkt.tci ∧
    (packet_send_vlan pkt (some ⟨TCI_UNTOUCHED, TCI_UNTOUCHED, TCI_UNTOUCHED_16⟩)).len = pkt.len + 4 ∧
    packet_buf (packet_send_vlan pkt (some ⟨TCI_UNTOUCHED, TCI_UNTOUCHED, TCI_UNTOUCHED_16⟩)) false mpdu =
      pkt.h_dest ++ pkt.h_source ++ [0x81, 0x00, 0x00, 0x00] ++ mpdu := by
  have hne : (⟨TCI_UNTOUCHED, TCI_UNTOUCHED, TCI_UNTOUCHED_16⟩ : tci_t).pcp ≠ TCI_NO_DOT1Q := by
    decide
  rw [packet_send_vlan_tag pkt _ hne]
  refine ⟨by simp [hvo], by simp [hvo, TCI_UNTOUCHED, TCI_UNTOUCHED_16], by simp [hvo], ?_⟩
  have hbe : be32 (packet_tcitonl ⟨0, 0, 0⟩) = [0x81, 0x00, 0x00, 0x00] := by decide
  simp [hvo, packet_buf, TCI_UNTOUCHED, TCI_UNTOUCHED_16, htci, hbe]

/-- Witness for C10_untouched_override_adds_tag on an untagged
EAPOL-Start capture. -/
theorem C10_untouched_override_adds_tag_witness :
    ({ tv_sec := 0, tv_usec := 0, len := 60, len_orig := 60,
       h_dest := [1, 128, 194, 0, 0, 3], h_source := [2, 0, 0, 0, 0, 1],
       vlan_valid := 0, vlan_valid_orig := 0,
       tci := ⟨0, 0, 0⟩, tci_orig := ⟨0, 0, 0⟩, type := 1, code := 0,
       eap_id := 0, eap_type := 0, name := "eth1", name_orig := "eth0",
       mtu := 1500, mtu_orig := 1500 } : peapod_packet).vlan_valid_orig = 0 ∧
    (packet_send_vlan
        { tv_sec := 0, tv_usec := 0, len := 60, len_orig := 60,
          h_dest := [1, 128, 194, 0, 0, 3], h_source := [2, 0, 0, 0, 0, 1],
          vlan_valid := 0, vlan_valid_orig := 0,
          tci := ⟨0, 0, 0⟩, tci_orig := ⟨0, 0, 0⟩, type := 1, code := 0,
          eap_id := 0, eap_type := 0, name := "eth1", name_orig := "eth0",
          mtu := 1500, mtu_orig := 1500 }
        (some ⟨TCI_UNTOUCHED, TCI_UNTOUCHED, TCI_UNTOUCHED_16⟩)).len = 60 + 4 := by
  refine ⟨rfl, ?_⟩
  exact (C10_untouched_override_adds_tag _ [] rfl rfl).2.2.1

/-- The frame-mask test of filter() seen through testBit, for masks that
fit the uint8_t field: for types up to 7 the test is exactly the
indexed bit of the mask; for type 8 the uint8_t cast of (1 << 8)
truncates to 0, and bit 8 of a uint8_t mask cannot be set either. -/
theorem mask_test_bit (m t : Nat) (hm : m < 256) (ht : t ≤ 8) :
    (m &&& ((1 <<< t) % 256) ≠ 0) ↔ m.testBit t := by
  by_cases h8 : t = 8
  · subst h8
    have hz : ((1 <<< 8 : Nat)) % 256 = 0 := by decide
    rw [hz, Nat.and_zero]
    simp [Nat.testBit_eq_false_of_lt (show m < 2 ^ 8 by omega)]
  · have ht7 : t ≤ 7 := by omega
    have hlt : (2 : Nat) ^ t < 256 := by
      calc (2 : Nat) ^ t ≤ 2 ^ 7 := Nat.pow_le_pow_right (by norm_num) ht7
        _ < 256 := by norm_num
    have h1 : (1 <<< t) % 256 = 2 ^ t := by
      rw [shiftLeft_mul, one_mul, Nat.mod_eq_of_lt hlt]
    rw [h1, Nat.and_two_pow]
    cases htb : m.testBit t <;> simp [htb]

/-- C2 counterexample: granting the claim a 16-bit type mask with bit 8
set, the decision code still does not drop a frame of type 8, because
it tests the mask against (uint8_t)(1 << type) which is 0 for type
8. -/
theorem C2_counterexample :
    Nat.testBit 0x100 8 = true ∧ filter ⟨0x100, 0⟩ 8 1 = 0 := by decide

/-- C2 amended: both masks are uint8_t. For every frame type up to 8
and EAP code below 8, the drop decision is true exactly when bit
frame.type of the 8-bit type mask is set, or the frame is EAPOL-EAP and
bit frame.code of the 8-bit code mask is set; a frame of type 8 is
never dropped, since (uint8_t)(1 << 8) is 0 and an 8-bit mask has no
bit 8. -/
theorem C2_filter_masks (f : filter_t) (type code : Nat) (hf : f.frame < 256)
    (hp : f.packet < 256) (ht : type ≤ 8) (hc : code < 8) :
    (filter f type code = 1 ↔
      (f.frame.testBit type ∨ (type = EAPOL_EAP_PACKET ∧ f.packet.testBit code))) ∧
    (type = 8 → filter f type code = 0) := by
  have hA := mask_test_bit f.frame type hf ht
  have hB := mask_test_bit f.packet code hp (by omega)
  constructor
  · unfold filter
    split_ifs with h1 h2
    · exact iff_of_true rfl (Or.inl (hA.mp h1))
    · exact iff_of_true rfl (Or.inr ⟨h2.1, hB.mp h2.2⟩)
    · refine iff_of_false (by norm_num) ?_
      rintro (htb | ⟨hty, hcb⟩)
      · exact h1 (hA.mpr htb)
      · exact h2 ⟨hty, hB.mpr hcb⟩
  · intro h8
    subst h8
    unfold filter
    have hz : f.frame &&& ((1 <<< 8) % 256) = 0 := by
      have : ((1 <<< 8 : Nat)) % 256 = 0 := by decide
      rw [this, Nat.and_zero]
    rw [if_neg (by simp [hz])]
    rw [if_neg (by simp [EAPOL_EAP_PACKET, EAPOL_EAP])]

/-- Witness for C2_filter_masks with mask 0x05 against an EAPOL-Start
frame. -/
theorem C2_filter_masks_witness :
    (((⟨0x05, 0x04⟩ : filter_t).frame < 256 ∧ (⟨0x05, 0x04⟩ : filter_t).packet < 256) ∧
      (1 : Nat) ≤ 8 ∧ (2 : Nat) < 8) ∧
    ((filter ⟨0x05, 0x04⟩ 1 2 = 1 ↔
        ((0x05 : Nat).testBit 1 ∨ ((1 : Nat) = EAPOL_EAP_PACKET ∧ (0x04 : Nat).testBit 2))) ∧
      ((1 : Nat) = 8 → filter ⟨0x05, 0x04⟩ 1 2 = 0)) :=
  ⟨by decide, C2_filter_masks ⟨0x05, 0x04⟩ 1 2 (by decide) (by decide) (by decide) (by decide)⟩

/-- C3 counterexample: egress phase, an interface with no egress filter
but an ingress filter whose type mask has bit 0 set; process_filter
returns 1 for an EAPOL-EAP frame, not 0. -/
theorem C3_counterexample :
    process_filter 0 0 ⟨some ⟨some ⟨1, 0⟩⟩, none⟩ PROCESS_EGRESS = 1 := by decide

/-- C3 amended: in the egress phase with no egress filter mask
configured, process_filter falls back to the interface's ingress
filter: it returns the ingress-filter decision when an ingress filter
is present, and 0 only when neither filter is present. -/
theorem C3_egress_fallback (type code : Nat) (iface : iface_conf)
    (h : egressFilter iface = none) :
    (∀ g, ingressFilter iface = some g →
        process_filter type code iface PROCESS_EGRESS = filter g type code) ∧
    (ingressFilter iface = none →
        process_filter type code iface PROCESS_EGRESS = 0) := by
  constructor
  · intro g hg
    unfold process_filter
    simp [h, hg]
  · intro hn
    unfold process_filter
    simp [h, hn]

/-- Witness for C3_egress_fallback: the fallback fires on the
counterexample interface. -/
theorem C3_egress_fallback_witness :
    egressFilter ⟨some ⟨some ⟨1, 0⟩⟩, none⟩ = none ∧
    ingressFilter ⟨some ⟨some ⟨1, 0⟩⟩, none⟩ = some ⟨1, 0⟩ ∧
    process_filter 0 0 ⟨some ⟨some ⟨1, 0⟩⟩, none⟩ PROCESS_EGRESS = filter ⟨1, 0⟩ 0 0 :=
  ⟨by decide, by decide,
    (C3_egress_fallback 0 0 ⟨some ⟨some ⟨1, 0⟩⟩, none⟩ (by decide)).1 ⟨1, 0⟩ (by decide)⟩

/-- C4 counterexample: the type-indexed script array has five entries
(char *frame[5], parser.h), so for a frame of type 8 the read
action->frame[8] in process_script is out of bounds, against the
claim's premise that indices 0..=8 are covered. -/
theorem C4_counterexample :
    ¬ (8 < ACTION_ARRAY_LEN) ∧
    process_script_path ⟨fun _ => none, fun _ => none⟩ 8 0 = none := by
  exact ⟨by decide, rfl⟩

/-- C4 amended: both action_t arrays have five entries, so the
type-indexed lookup is in bounds only for types 0..4. For type < 5 and
code < 5, selection consults frame[type] first; if that entry is NULL
and the frame is EAPOL-EAP, packet[code] is consulted; the first match
wins and at most one script is selected. -/
theorem C4_script_selection (a : action_t) (type code : Nat)
    (ht : type < ACTION_ARRAY_LEN) (hc : code < ACTION_ARRAY_LEN) :
    process_script_path a type code =
      some (match a.frame ⟨type, ht⟩ with
            | some p => some p
            | none => if type = EAPOL_EAP_PACKET then a.packet ⟨code, hc⟩ else none) := by
  unfold process_script_path action_frame_get action_packet_get
  rw [dif_pos ht]
  cases hfr : a.frame ⟨type, ht⟩ with
  | some p => simp [hfr]
  | none =>
    by_cases hty : type = EAPOL_EAP_PACKET
    · simp [hfr, hty, dif_pos hc]
    · simp [hfr, hty]

/-- Witness for C4_script_selection: a table with a type-1 script and a
code-2 script, applied to an EAPOL-Start frame. -/
theorem C4_script_selection_witness :
    ((1 : Nat) < ACTION_ARRAY_LEN ∧ (2 : Nat) < ACTION_ARRAY_LEN) ∧
    process_script_path
        ⟨fun i => if i.val = 1 then some "/opt/start.sh" else none,
         fun i => if i.val = 2 then some "/opt/response.sh" else none⟩ 1 2 =
      some (match (if (1 : Nat) = 1 then some "/opt/start.sh" else none : Option String) with
            | some p => some p
            | none => if (1 : Nat) = EAPOL_EAP_PACKET
                then (if (2 : Nat) = 2 then some "/opt/response.sh" else none : Option String)
                else none) :=
  ⟨⟨by decide, by decide⟩,
    C4_script_selection
      ⟨fun i => if i.val = 1 then some "/opt/start.sh" else none,
       fun i => if i.val = 2 then some "/opt/response.sh" else none⟩ 1 2
      (by decide) (by decide)⟩

/-- C5: a nonnegative receive below 60 bytes is classified -2 (runt) and
dropped with the loop continuing; a receive whose auxdata tp_len
exceeds the received length is classified -3 (giant) and likewise
dropped; a negative receive is classified -1 and routed to the
error-restart path. The hypothesis is the recvmsg contract: the return
value is -1 or nonnegative. -/
theorem C5_recv_classification (recv_len : Int) (aux : Option packet_auxdata_t)
    (hrecv : recv_len = -1 ∨ 0 ≤ recv_len) :
    (0 ≤ recv_len → recv_len < 60 →
        (packet_recvmsg recv_len aux).len = -2 ∧
        proxy_disposition (packet_recvmsg recv_len aux).len = .drop_continue) ∧
    (∀ a, aux = some a → 60 ≤ recv_len → recv_len < (a.tp_len : Int) →
        (packet_recvmsg recv_len aux).len = -3 ∧
        proxy_disposition (packet_recvmsg recv_len aux).len = .drop_continue) ∧
    (recv_len < 0 →
        (packet_recvmsg recv_len aux).len = -1 ∧
        proxy_disposition (packet_recvmsg recv_len aux).len = .error_restart) := by
  refine ⟨?_, ?_, ?_⟩
  · intro h0 h60
    have hne : ¬ recv_len = -1 := by omega
    unfold packet_recvmsg
    rw [if_neg hne, if_pos h60]
    exact ⟨rfl, by decide⟩
  · intro a ha h60 hlen
    subst ha
    have hne : ¬ recv_len = -1 := by omega
    have hlt : ¬ recv_len < 60 := by omega
    unfold packet_recvmsg
    rw [if_neg hne, if_neg hlt]
    dsimp only
    rw [if_pos hlen]
    exact ⟨rfl, by decide⟩
  · intro hneg
    have h1 : recv_len = -1 := by omega
    subst h1
    unfold packet_recvmsg
    rw [if_pos rfl]
    exact ⟨rfl, by decide⟩

/-- Witness for C5_recv_classification on a 59-byte runt receive. -/
theorem C5_recv_classification_witness :
    ((59 : Int) = -1 ∨ (0 : Int) ≤ 59) ∧
    ((packet_recvmsg 59 none).len = -2 ∧
      proxy_disposition (packet_recvmsg 59 none).len = .drop_continue) :=
  ⟨Or.inr (by decide),
    (C5_recv_classification 59 none (Or.inr (by decide))).1 (by decide) (by decide)⟩

/-- The counter bump preserves indexes and set_mac_from fields. -/
theorem proxy_bump_find? (ifaces : List proxy_iface) (cap : Nat) (c : proxy_iface)
    (hfind : ifaces.find? (fun i => i.index == cap) = some c) :
    (proxy_bump ifaces cap).find? (fun i => i.index == cap)
      = some { c with recv_ctr := c.recv_ctr + 1 } := by
  have hidx : c.index = cap := by
    have hmem := List.find?_some hfind
    simpa using hmem
  unfold proxy_bump
  rw [List.find?_map]
  have hcomp : ((fun i : proxy_iface => i.index == cap) ∘
      fun i => if i.index = cap then { i with recv_ctr := i.recv_ctr + 1 } else i)
      = fun i => i.index == cap := by
    funext i
    by_cases h : i.index = cap <;> simp [h]
  rw [hcomp, hfind]
  simp [hidx]

/-- C7: the set-MAC-from walk fires only on the receive that takes an
interface's counter from 0 to 1. On that receive, the loop clears
set_mac_from on every interface referencing the capturing one and
invokes the MAC setter once per such peer with the captured source MAC;
on a receive with the counter already positive, no MAC setter is
invoked and every set_mac_from is untouched. -/
theorem C7_set_mac_oneshot (ifaces : List proxy_iface) (cap : Nat) (src : List Nat)
    (c : proxy_iface) (hfind : ifaces.find? (fun i => i.index == cap) = some c) :
    (c.recv_ctr = 0 →
        (proxy_recv_step ifaces cap src).2 =
          ((proxy_bump ifaces cap).filter fun i => i.set_mac_from == cap).map
            (fun i => (i.index, src)) ∧
        (proxy_recv_step ifaces cap src).1 =
          (proxy_bump ifaces cap).map
            fun i => if i.set_mac_from = cap then { i with set_mac_from := 0 } else i) ∧
    (1 ≤ c.recv_ctr →
        (proxy_recv_step ifaces cap src).2 = [] ∧
        (proxy_recv_step ifaces cap src).1 = proxy_bump ifaces cap ∧
        ((proxy_recv_step ifaces cap src).1.map fun i => i.set_mac_from)
          = ifaces.map fun i => i.set_mac_from) := by
  have hf2 := proxy_bump_find? ifaces cap c hfind
  constructor
  · intro h0
    unfold proxy_recv_step
    rw [hf2]
    dsimp only
    have h1 : c.recv_ctr + 1 = 1 := by omega
    rw [if_pos h1]
    exact ⟨rfl, rfl⟩
  · intro hpos
    unfold proxy_recv_step
    rw [hf2]
    dsimp only
    have hne : ¬ c.recv_ctr + 1 = 1 := by omega
    rw [if_neg hne]
    refine ⟨rfl, rfl, ?_⟩
    unfold proxy_bump
    rw [List.map_map]
    apply List.map_congr_left
    intro i _
    by_cases h : i.index = cap <;> simp [h]

/-- Witness for C7_set_mac_oneshot: on a second receive on interface 1,
interface 2 keeps its set_mac_from and the MAC setter is not called. -/
theorem C7_set_mac_oneshot_witness :
    ([⟨1, 0, 1⟩, ⟨2, 1, 0⟩] : List proxy_iface).find? (fun i => i.index == 1)
        = some ⟨1, 0, 1⟩ ∧
    (1 ≤ (⟨1, 0, 1⟩ : proxy_iface).recv_ctr) ∧
    ((proxy_recv_step [⟨1, 0, 1⟩, ⟨2, 1, 0⟩] 1 [2, 0, 0, 0, 0, 1]).2 = [] ∧
      (proxy_recv_step [⟨1, 0, 1⟩, ⟨2, 1, 0⟩] 1 [2, 0, 0, 0, 0, 1]).1
        = proxy_bump [⟨1, 0, 1⟩, ⟨2, 1, 0⟩] 1 ∧
      ((proxy_recv_step [⟨1, 0, 1⟩, ⟨2, 1, 0⟩] 1 [2, 0, 0, 0, 0, 1]).1.map
          fun i => i.set_mac_from)
        = ([⟨1, 0, 1⟩, ⟨2, 1, 0⟩] : List proxy_iface).map fun i => i.set_mac_from) :=
  ⟨by decide, by decide,
    (C7_set_mac_oneshot [⟨1, 0, 1⟩, ⟨2, 1, 0⟩] 1 [2, 0, 0, 0, 0, 1] ⟨1, 0, 1⟩
      (by decide)).2 (by decide)⟩

/-- The Base64 alphabet never contains the padding character. -/
theorem b64char_ne_pad (n : Nat) : b64char n ≠ '=' := by
  by_cases h : n < 64
  · revert h
    revert n
    decide
  · unfold b64char
    have hlen : b64.length ≤ n := by
      have : b64.length = 64 := by decide
      omega
    rw [List.getD_eq_getElem?_getD, List.getElem?_eq_none hlen]
    decide

/-- b64val inverts b64char on the table range. -/
theorem b64val_b64char : ∀ n < 64, b64val (b64char n) = n := by
  decide

/-- The encoder on a whole 3-byte group, with the shift-and-mask
arithmetic rewritten to division and remainder. -/
theorem b64enc_cons3 (b0 b1 b2 : Nat) (rest : List Nat) :
    b64enc (b0 :: b1 :: b2 :: rest) =
      b64char (b0 / 4) :: b64char ((b0 % 4) * 16 + b1 / 16 % 16) ::
      b64char ((b1 % 16) * 4 + b2 / 64 % 4) :: b64char (b2 % 64) :: b64enc rest := by
  have e0 : b0 >>> 2 = b0 / 4 := by rw [shiftRight_div]; norm_num
  have e1 : (b0 &&& 0x3) <<< 4 ||| (b1 &&& 0xf0) >>> 4 = (b0 % 4) * 16 + b1 / 16 % 16 := by
    rw [and_mask_mod 2 0x3 (by norm_num), shiftLeft_mul, and_shiftRight_distrib]
    have hf : (0xf0 : Nat) >>> 4 = 0xf := by decide
    rw [hf, shiftRight_div, and_mask_mod 4 0xf (by norm_num),
      lor_eq_add_of_mod_eq_zero 4 (by omega) (by omega)]
    norm_num
  have e2 : (b1 &&& 0xf) <<< 2 ||| (b2 &&& 0xc0) >>> 6 = (b1 % 16) * 4 + b2 / 64 % 4 := by
    rw [and_mask_mod 4 0xf (by norm_num), shiftLeft_mul, and_shiftRight_distrib]
    have hc : (0xc0 : Nat) >>> 6 = 0x3 := by decide
    rw [hc, shiftRight_div, and_mask_mod 2 0x3 (by norm_num),
      lor_eq_add_of_mod_eq_zero 2 (by omega) (by omega)]
    norm_num
  have e3 : b2 &&& 0x3f = b2 % 64 := by
    rw [and_mask_mod 6 0x3f (by norm_num)]
    norm_num
  rw [show b64enc (b0 :: b1 :: b2 :: rest) =
      b64char (b0 >>> 2) ::
      b64char ((b0 &&& 0x3) <<< 4 ||| (b1 &&& 0xf0) >>> 4) ::
      b64char ((b1 &&& 0xf) <<< 2 ||| (b2 &&& 0xc0) >>> 6) ::
      b64char (b2 &&& 0x3f) :: b64enc rest from rfl, e0, e1, e2, e3]

/-- The encoder on a 1-byte tail. -/
theorem b64enc_one (b0 : Nat) :
    b64enc [b0] = [b64char (b0 / 4), b64char ((b0 % 4) * 16), '=', '='] := by
  have e0 : b0 >>> 2 = b0 / 4 := by rw [shiftRight_div]; norm_num
  have e1 : (b0 &&& 0x3) <<< 4 = (b0 % 4) * 16 := by
    rw [and_mask_mod 2 0x3 (by norm_num), shiftLeft_mul]
    norm_num
  rw [show b64enc [b0] = [b64char (b0 >>> 2), b64char ((b0 &&& 0x3) <<< 4), '=', '=']
      from rfl, e0, e1]

/-- The encoder on a 2-byte tail. -/
theorem b64enc_two (b0 b1 : Nat) :
    b64enc [b0, b1] =
      [b64char (b0 / 4), b64char ((b0 % 4) * 16 + b1 / 16 % 16),
       b64char ((b1 % 16) * 4), '='] := by
  have e0 : b0 >>> 2 = b0 / 4 := by rw [shiftRight_div]; norm_num
  have e1 : (b0 &&& 0x3) <<< 4 ||| (b1 &&& 0xf0) >>> 4 = (b0 % 4) * 16 + b1 / 16 % 16 := by
    rw [and_mask_mod 2 0x3 (by norm_num), shiftLeft_mul, and_shiftRight_distrib]
    have hf : (0xf0 : Nat) >>> 4 = 0xf := by decide
    rw [hf, shiftRight_div, and_mask_mod 4 0xf (by norm_num),
      lor_eq_add_of_mod_eq_zero 4 (by omega) (by omega)]
    norm_num
  have e2 : (b1 &&& 0xf) <<< 2 = (b1 % 16) * 4 := by
    rw [and_mask_mod 4 0xf (by norm_num), shiftLeft_mul]
    norm_num
  rw [show b64enc [b0, b1] =
      [b64char (b0 >>> 2), b64char ((b0 &&& 0x3) <<< 4 ||| (b1 &&& 0xf0) >>> 4),
       b64char ((b1 &&& 0xf) <<< 2), '='] from rfl, e0, e1, e2]

/-- A decoded Base64 quantum without padding. -/
theorem b64dec_cons4 (c0 c1 c2 c3 : Char) (rest : List Char)
    (h2 : c2 ≠ '=') (h3 : c3 ≠ '=') :
    b64dec (c0 :: c1 :: c2 :: c3 :: rest) =
      ((b64val c0) <<< 2 ||| (b64val c1) >>> 4) ::
      (((b64val c1) &&& 0xf) <<< 4 ||| (b64val c2) >>> 2) ::
      (((b64val c2) &&& 0x3) <<< 6 ||| (b64val c3)) :: b64dec rest := by
  conv_lhs => rw [b64dec]
  rw [if_neg h2, if_neg h3]

/-- Reassembling the three bytes of a full group recovers them. -/
theorem b64_group_round (b0 b1 b2 : Nat) (h0 : b0 < 256) (h1 : b1 < 256) (h2 : b2 < 256) :
    ((b0 / 4) <<< 2 ||| ((b0 % 4) * 16 + b1 / 16 % 16) >>> 4) = b0 ∧
    ((((b0 % 4) * 16 + b1 / 16 % 16) &&& 0xf) <<< 4 ||| ((b1 % 16) * 4 + b2 / 64 % 4) >>> 2) = b1 ∧
    ((((b1 % 16) * 4 + b2 / 64 % 4) &&& 0x3) <<< 6 ||| (b2 % 64)) = b2 := by
  refine ⟨?_, ?_, ?_⟩
  · rw [shiftLeft_mul, shiftRight_div,
      lor_eq_add_of_mod_eq_zero 2 (by omega) (by omega)]
    omega
  · rw [and_mask_mod 4 0xf (by norm_num), shiftLeft_mul, shiftRight_div,
      lor_eq_add_of_mod_eq_zero 4 (by omega) (by omega)]
    omega
  · rw [and_mask_mod 2 0x3 (by norm_num), shiftLeft_mul,
      lor_eq_add_of_mod_eq_zero 6 (by omega) (by omega)]
    omega

/-- C9: b64enc produces canonical padded Base64: decoding recovers the
input exactly for every byte string (length mod 3 of 0, 1 or 2,
including empty), and the encoded length, null terminator excluded, is
4 * ceil(len / 3), written 4 * ((len + 2) / 3). -/
theorem C9_b64enc_round_trip (x : List Nat) (h : ∀ b ∈ x, b < 256) :
    b64dec (b64enc x) = x ∧ (b64enc x).length = 4 * ((x.length + 2) / 3) := by
  induction x using b64enc.induct with
  | case1 b0 b1 b2 rest ih =>
    have hb0 : b0 < 256 := h b0 (by simp)
    have hb1 : b1 < 256 := h b1 (by simp)
    have hb2 : b2 < 256 := h b2 (by simp)
    have hrest : ∀ b ∈ rest, b < 256 := fun b hb => h b (by simp [hb])
    obtain ⟨ihdec, ihlen⟩ := ih hrest
    rw [b64enc_cons3]
    constructor
    · rw [b64dec_cons4 _ _ _ _ _ (b64char_ne_pad _) (b64char_ne_pad _)]
      rw [b64val_b64char (b0 / 4) (by omega),
        b64val_b64char ((b0 % 4) * 16 + b1 / 16 % 16) (by omega),
        b64val_b64char ((b1 % 16) * 4 + b2 / 64 % 4) (by omega),
        b64val_b64char (b2 % 64) (by omega)]
      obtain ⟨g0, g1, g2⟩ := b64_group_round b0 b1 b2 hb0 hb1 hb2
      rw [g0, g1, g2, ihdec]
    · simp only [List.length_cons, ihlen]
      omega
  | case2 b0 b1 =>
    have hb0 : b0 < 256 := h b0 (by simp)
    have hb1 : b1 < 256 := h b1 (by simp)
    rw [b64enc_two]
    constructor
    · unfold b64dec
      rw [if_neg (b64char_ne_pad ((b1 % 16) * 4)), if_pos rfl]
      rw [b64val_b64char (b0 / 4) (by omega),
        b64val_b64char ((b0 % 4) * 16 + b1 / 16 % 16) (by omega),
        b64val_b64char ((b1 % 16) * 4) (by omega)]
      have d0 : ((b0 / 4) <<< 2 ||| ((b0 % 4) * 16 + b1 / 16 % 16) >>> 4) = b0 := by
        rw [shiftLeft_mul, shiftRight_div,
          lor_eq_add_of_mod_eq_zero 2 (by omega) (by omega)]
        omega
      have d1 : ((((b0 % 4) * 16 + b1 / 16 % 16) &&& 0xf) <<< 4 ||| ((b1 % 16) * 4) >>> 2) = b1 := by
        rw [and_mask_mod 4 0xf (by norm_num), shiftLeft_mul, shiftRight_div,
          lor_eq_add_of_mod_eq_zero 4 (by omega) (by omega)]
        omega
      rw [d0, d1]
    · simp
  | case3 b0 =>
    have hb0 : b0 < 256 := h b0 (by simp)
    rw [b64enc_one]
    constructor
    · unfold b64dec
      rw [if_pos rfl]
      rw [b64val_b64char (b0 / 4) (by omega),
        b64val_b64char ((b0 % 4) * 16) (by omega)]
      have d0 : ((b0 / 4) <<< 2 ||| ((b0 % 4) * 16) >>> 4) = b0 := by
        rw [shiftLeft_mul, shiftRight_div,
          lor_eq_add_of_mod_eq_zero 2 (by omega) (by omega)]
        omega
      rw [d0]
    · simp
  | case4 =>
    exact ⟨rfl, rfl⟩

/-- Witness for C9_b64enc_round_trip on a 4-byte input. -/
theorem C9_b64enc_round_trip_witness :
    (∀ b ∈ [0x01, 0x80, 0xc2, 0xff], b < 256) ∧
    (b64dec (b64enc [0x01, 0x80, 0xc2, 0xff]) = [0x01, 0x80, 0xc2, 0xff] ∧
      (b64enc [0x01, 0x80, 0xc2, 0xff]).length = 4 * (([0x01, 0x80, 0xc2, 0xff].length + 2) / 3)) :=
  ⟨by decide, C9_b64enc_round_trip [0x01, 0x80, 0xc2, 0xff] (by decide)⟩

/-- C6 counterexample: for a frame that was captured with an 802.1Q tag
(and keeps one on egress), the child environment names the TCI
variables PKT_TCI_ORIG and PKT_TCI; no variable is named
PKT_DOT1Q_TCI_ORIG or PKT_DOT1Q_TCI as the claim states. -/
theorem C6_counterexample :
    "PKT_TCI_ORIG" ∈ (script_env
        { tv_sec := 0, tv_usec := 0, len := 0, len_orig := 0,
          h_dest := [], h_source := [], vlan_valid := 1, vlan_valid_orig := 1,
          tci := ⟨5, 0, 0⟩, tci_orig := ⟨5, 0, 0⟩, type := 1, code := 0,
          eap_id := 0, eap_type := 0, name := "eth1", name_orig := "eth0",
          mtu := 1500, mtu_orig := 1500 } []).map Prod.fst ∧
    "PKT_DOT1Q_TCI_ORIG" ∉ (script_env
        { tv_sec := 0, tv_usec := 0, len := 0, len_orig := 0,
          h_dest := [], h_source := [], vlan_valid := 1, vlan_valid_orig := 1,
          tci := ⟨5, 0, 0⟩, tci_orig := ⟨5, 0, 0⟩, type := 1, code := 0,
          eap_id := 0, eap_type := 0, name := "eth1", name_orig := "eth0",
          mtu := 1500, mtu_orig := 1500 } []).map Prod.fst ∧
    "PKT_DOT1Q_TCI" ∉ (script_env
        { tv_sec := 0, tv_usec := 0, len := 0, len_orig := 0,
          h_dest := [], h_source := [], vlan_valid := 1, vlan_valid_orig := 1,
          tci := ⟨5, 0, 0⟩, tci_orig := ⟨5, 0, 0⟩, type := 1, code := 0,
          eap_id := 0, eap_type := 0, name := "eth1", name_orig := "eth0",
          mtu := 1500, mtu_orig := 1500 } []).map Prod.fst := by
  refine ⟨?_, ?_, ?_⟩ <;> simp [script_env, EAPOL_EAP_PACKET, EAPOL_EAP]

/-- C6 amended: the child environment contains exactly the PKT_*
variables of process.c, in setenv order, with the conditional EAP and
TCI groups; the original-TCI variable is named PKT_TCI_ORIG and the
egress variable PKT_TCI, each holding the four hex characters of the
respective TCI (the %.08x rendering of the 4-byte tag with the TPID
half cut off). -/
theorem C6_script_env_names (pkt : peapod_packet) (mpdu : List Nat) :
    ((script_env pkt mpdu).map Prod.fst =
      ["PKT_TIME", "PKT_DEST", "PKT_SOURCE", "PKT_TYPE", "PKT_TYPE_DESC"]
      ++ (if pkt.type = EAPOL_EAP_PACKET then
            ["PKT_CODE", "PKT_CODE_DESC", "PKT_ID"]
            ++ (if pkt.code = 1 ∨ pkt.code = 2 then
                  ["PKT_REQRESP_TYPE", "PKT_REQRESP_DESC"]
                else [])
          else [])
      ++ ["PKT_LENGTH_ORIG", "PKT_ORIG", "PKT_IFACE_ORIG", "PKT_IFACE_MTU_ORIG"]
      ++ (if pkt.vlan_valid_orig = 1 then ["PKT_TCI_ORIG"] else [])
      ++ ["PKT_LENGTH", "PKT", "PKT_IFACE", "PKT_IFACE_MTU"]
      ++ (if pkt.vlan_valid = 1 then ["PKT_TCI"] else [])) ∧
    (pkt.vlan_valid_orig = 1 →
        ("PKT_TCI_ORIG", tciEnvValue pkt.tci_orig) ∈ script_env pkt mpdu) ∧
    (pkt.vlan_valid = 1 →
        ("PKT_TCI", tciEnvValue pkt.tci) ∈ script_env pkt mpdu) ∧
    "PKT_DOT1Q_TCI_ORIG" ∉ (script_env pkt mpdu).map Prod.fst ∧
    "PKT_DOT1Q_TCI" ∉ (script_env pkt mpdu).map Prod.fst ∧
    (∀ t : tci_t, (tciEnvValue t).length = 4) := by
  refine ⟨?_, ?_, ?_, ?_, ?_, ?_⟩
  · by_cases h1 : pkt.type = EAPOL_EAP_PACKET <;>
      by_cases h2 : pkt.code = 1 ∨ pkt.code = 2 <;>
      by_cases h3 : pkt.vlan_valid_orig = 1 <;>
      by_cases h4 : pkt.vlan_valid = 1 <;>
      simp [script_env, h1, h2, h3, h4]
  · intro h3
    simp [script_env, h3]
  · intro h4
    simp [script_env, h4]
  · by_cases h1 : pkt.type = EAPOL_EAP_PACKET <;>
      by_cases h2 : pkt.code = 1 ∨ pkt.code = 2 <;>
      by_cases h3 : pkt.vlan_valid_orig = 1 <;>
      by_cases h4 : pkt.vlan_valid = 1 <;>
      simp [script_env, h1, h2, h3, h4]
  · by_cases h1 : pkt.type = EAPOL_EAP_PACKET <;>
      by_cases h2 : pkt.code = 1 ∨ pkt.code = 2 <;>
      by_cases h3 : pkt.vlan_valid_orig = 1 <;>
      by_cases h4 : pkt.vlan_valid = 1 <;>
      simp [script_env, h1, h2, h3, h4]
  · intro t
    simp [tciEnvValue, String.length, hex8chars]

/-- Witness for C6_script_env_names on a tagged capture. -/
theorem C6_script_env_names_witness :
    ({ tv_sec := 0, tv_usec := 0, len := 0, len_orig := 0,
       h_dest := [], h_source := [], vlan_valid := 1, vlan_valid_orig := 1,
       tci := ⟨5, 0, 0⟩, tci_orig := ⟨5, 0, 0⟩, type := 1, code := 0,
       eap_id := 0, eap_type := 0, name := "eth1", name_orig := "eth0",
       mtu := 1500, mtu_orig := 1500 } : peapod_packet).vlan_valid_orig = 1 ∧
    ("PKT_TCI_ORIG", tciEnvValue ⟨5, 0, 0⟩) ∈ script_env
        { tv_sec := 0, tv_usec := 0, len := 0, len_orig := 0,
          h_dest := [], h_source := [], vlan_valid := 1, vlan_valid_orig := 1,
          tci := ⟨5, 0, 0⟩, tci_orig := ⟨5, 0, 0⟩, type := 1, code := 0,
          eap_id := 0, eap_type := 0, name := "eth1", name_orig := "eth0",
          mtu := 1500, mtu_orig := 1500 } [] :=
  ⟨rfl,
    (C6_script_env_names
      { tv_sec := 0, tv_usec := 0, len := 0, len_orig := 0,
        h_dest := [], h_source := [], vlan_valid := 1, vlan_valid_orig := 1,
        tci := ⟨5, 0, 0⟩, tci_orig := ⟨5, 0, 0⟩, type := 1, code := 0,
        eap_id := 0, eap_type := 0, name := "eth1", name_orig := "eth0",
        mtu := 1500, mtu_orig := 1500 } []).2.1 rfl⟩

end Peapod
